import Mathlib

/-!
Verification development for the Companion update dashboard.

The Python sources are shallowly embedded as Lean definitions:

* `app/services/version.py`  — version parsing, comparison, display formatting;
* `app/services/github.py`   — the TTL-gated release cache (`GitHubClient`);
* `updater/app/services/docker_ops.py` — the cooldown gate and the
  pull / rebuild / restart / verify update pipeline (`DockerOps`);
* `app/main.py`              — the status query, the blocking trigger
  endpoint, and the SSE streaming endpoint, plus a small-step machine for
  the process-wide single-flight flag.

Timestamps (`time.time()` floats in Python) are modelled as integers
measured in seconds; subprocess interactions are modelled by explicit
result records (`ProcResult`, `InspectResult`) passed in as parameters,
and the network fetch of `GitHubClient` by an `Except` parameter.
-/

/-! ## version.py -/

/-- Accumulating scan that extracts maximal runs of digits from a character
list as natural numbers, mirroring `re.findall(r"\d+", s)` followed by
`int`. -/
def digitRunsAux : List Char → Option Nat → List Nat
  | [], none => []
  | [], some n => [n]
  | c :: cs, acc =>
    if c.isDigit then
      digitRunsAux cs (some (acc.getD 0 * 10 + (c.toNat - 48)))
    else
      match acc with
      | none => digitRunsAux cs none
      | some n => n :: digitRunsAux cs none

/-- Embedding of `parse_version`: strip leading `v` characters
(Python `lstrip("v")`), then extract the maximal digit runs in order. -/
def parse_version (s : String) : List Nat :=
  digitRunsAux (s.toList.dropWhile (fun c => c = 'v')) none

/-- Python tuple `<` on integer tuples: strict lexicographic order where a
proper prefix is smaller. -/
def tupLt : List Nat → List Nat → Bool
  | [], [] => false
  | [], _ :: _ => true
  | _ :: _, [] => false
  | x :: xs, y :: ys => if x < y then true else if y < x then false else tupLt xs ys

/-- Core of `compare_versions` after parsing: pad the shorter sequence with
trailing zeros to the common length, then compare as Python tuples. -/
def compare_parts (c l : List Nat) : Int :=
  let m := max c.length l.length
  let cp := c ++ List.replicate (m - c.length) 0
  let lp := l ++ List.replicate (m - l.length) 0
  if tupLt cp lp then -1 else if tupLt lp cp then 1 else 0

/-- Embedding of `compare_versions`: -1 when current is older, 1 when
newer, 0 when equal after zero-padding. -/
def compare_versions (current latest : String) : Int :=
  compare_parts (parse_version current) (parse_version latest)

/-- Embedding of `is_update_available`: `compare_versions(current, latest) < 0`. -/
def is_update_available (current latest : String) : Bool :=
  compare_versions current latest < 0

/-- Python `s.startswith("v")`: the first character is `v`. -/
def startsWithV (s : String) : Bool :=
  match s.toList with
  | [] => false
  | c :: _ => c = 'v'

/-- Embedding of `format_version`: `None` or empty input gives the
sentinel; otherwise a `v` is prepended unless the string already starts
with one, in which case it is returned unchanged. -/
def format_version : Option String → String
  | none => "Unknown"
  | some v =>
    if v = "" then "Unknown"
    else if startsWithV v then v
    else "v" ++ v

/-- Number of leading `v` characters of a string (used to state the
claimed "exactly one leading v" property). -/
def leadingVCount (s : String) : Nat :=
  (s.toList.takeWhile (fun c => c = 'v')).length

example : parse_version "v4.2.3" = [4, 2, 3] := by decide
example : parse_version "abc" = [] := by decide
example : is_update_available "4.2" "4.2.0" = false := by decide
example : is_update_available "4.2.3" "4.2.4" = true := by decide
example : format_version (some "vv4.2.3") = "vv4.2.3" := by decide
example : leadingVCount "vv4.2.3" = 2 := by decide

/-! ## config.py -/

/-- Embedding of `Settings` from `config.py`, restricted to the fields the
core logic reads (paths and rate limits). -/
structure Settings where
  companion_docker_path : String
  update_cooldown : Int
  github_cache_ttl : Int
deriving DecidableEq

/-! ## github.py -/

/-- The release record `GitHubClient.get_latest_release` builds and caches
(the dictionary assembled from the JSON response). -/
structure ReleaseInfo where
  tag_name : String
  name : String
  published_at : String
  html_url : String
  body : String
deriving DecidableEq

/-- Raw fields of a successful JSON response, already defaulted to the
empty string as `data.get(key, "")` does. -/
structure FetchData where
  tag_name : String
  name : String
  published_at : String
  html_url : String
  body : String
deriving DecidableEq

/-- Failure modes of the network fetch: `httpx.HTTPStatusError` (non-2xx
response) and `httpx.RequestError` (timeout, DNS, connection refused). -/
inductive FetchErr
  | httpStatus (code : Nat)
  | transport (msg : String)
deriving DecidableEq

/-- Message of the `RuntimeError` raised for each fetch failure mode. -/
def fetchErrorMessage : FetchErr → String
  | .httpStatus c => "GitHub API error: " ++ toString c
  | .transport m => "Failed to connect to GitHub: " ++ m

/-- Mutable state of the `GitHubClient` singleton: `_cache` and
`_cache_time` (initially `None` and 0). -/
structure GitHubClient where
  cache : Option ReleaseInfo
  cache_time : Int
deriving DecidableEq

/-- Embedding of `GitHubClient._is_cache_valid`: a cache entry exists and
its age is strictly below the TTL. -/
def GitHubClient.is_cache_valid (g : GitHubClient) (s : Settings) (now : Int) : Bool :=
  match g.cache with
  | none => false
  | some _ => decide (now - g.cache_time < s.github_cache_ttl)

/-- The cache entry built from a successful response, with release notes
truncated to 500 characters. -/
def mkCacheEntry (d : FetchData) : ReleaseInfo :=
  { tag_name := d.tag_name
    name := d.name
    published_at := d.published_at
    html_url := d.html_url
    body := d.body.take 500 }

/-- Embedding of `GitHubClient.get_latest_release`. The network is
modelled by the `fetch` parameter; `now` is the clock at the validity
check and `fetchedAt` the clock when `_cache_time` is assigned. Returns
the call result, the client state after the call, and the number of
network requests issued. -/
def GitHubClient.get_latest_release (g : GitHubClient) (s : Settings)
    (now fetchedAt : Int) (fetch : Except FetchErr FetchData) :
    Except String ReleaseInfo × GitHubClient × Nat :=
  if g.is_cache_valid s now then
    (Except.ok (g.cache.getD ⟨"", "", "", "", ""⟩), g, 0)
  else
    match fetch with
    | .ok d =>
      let info := mkCacheEntry d
      (Except.ok info, { cache := some info, cache_time := fetchedAt }, 1)
    | .error e => (Except.error (fetchErrorMessage e), g, 1)

/-- Embedding of `GitHubClient.clear_cache`. -/
def GitHubClient.clear_cache (_ : GitHubClient) : GitHubClient :=
  { cache := none, cache_time := 0 }

/-! ## docker_ops.py -/

/-- Mutable state of the `DockerOperations` singleton: `_last_update_time`
(initially 0). -/
structure DockerOps where
  last_update_time : Int
deriving DecidableEq

/-- Embedding of `DockerOperations.can_update`: the elapsed time since the
last recorded update reaches the configured cooldown. -/
def DockerOps.can_update (d : DockerOps) (s : Settings) (now : Int) : Bool :=
  decide (s.update_cooldown ≤ now - d.last_update_time)

/-- Embedding of `DockerOperations.get_cooldown_remaining`:
`max(0, cooldown - elapsed)`. -/
def DockerOps.get_cooldown_remaining (d : DockerOps) (s : Settings) (now : Int) : Int :=
  max 0 (s.update_cooldown - (now - d.last_update_time))

/-- Outcome of one subprocess streamed line by line: its (already split)
standard output and its exit code. -/
structure ProcResult where
  output : List String
  exitcode : Int
deriving DecidableEq

/-- Outcome of one `docker inspect` call: captured standard output, exit
code, and an optional `SubprocessError`. -/
structure InspectResult where
  stdout : String
  exitcode : Int
  exc : Option String
deriving DecidableEq

/-- The per-line processing shared by the three streaming stages: strip
each line, drop empty ones, indent the rest by two spaces. -/
def streamLines (out : List String) : List String :=
  ((out.map String.trim).filter (fun l => l ≠ "")).map (fun l => "  " ++ l)

/-- Embedding of `DockerOperations.pull_base_image`: the lines yielded
before control returns, and the error raised on a non-zero exit. -/
def pull_base_image (p : ProcResult) : List String × Option String :=
  if p.exitcode ≠ 0 then
    ("Pulling latest Companion base image..." :: streamLines p.output,
      some "Failed to pull base image")
  else
    ("Pulling latest Companion base image..." :: streamLines p.output
        ++ ["Base image pulled successfully"],
      none)

/-- Embedding of `DockerOperations.rebuild_image`: after the opening line
the configured directory is required to exist, then the compose build runs. -/
def rebuild_image (dirExists : Bool) (path : String) (p : ProcResult) :
    List String × Option String :=
  if ¬ dirExists then
    (["Rebuilding Companion image..."],
      some ("Companion directory not found: " ++ path))
  else if p.exitcode ≠ 0 then
    ("Rebuilding Companion image..." :: streamLines p.output,
      some "Failed to rebuild image")
  else
    ("Rebuilding Companion image..." :: streamLines p.output
        ++ ["Image rebuilt successfully"],
      none)

/-- Embedding of `DockerOperations.restart_container`. -/
def restart_container (p : ProcResult) : List String × Option String :=
  if p.exitcode ≠ 0 then
    ("Restarting Companion container..." :: streamLines p.output,
      some "Failed to restart container")
  else
    ("Restarting Companion container..." :: streamLines p.output
        ++ ["Container restarted successfully"],
      none)

/-- Python `s.lstrip("v")`: drop every leading `v` character. -/
def lstripV (s : String) : String :=
  String.mk (s.toList.dropWhile (fun c => c = 'v'))

/-- Embedding of `DockerOperations.get_running_version`: `None` on a
subprocess error, a non-zero exit, an empty label or the literal
`<no value>`; otherwise the label with leading `v` stripped. -/
def get_running_version (r : InspectResult) : Option String :=
  match r.exc with
  | some _ => none
  | none =>
    if r.exitcode ≠ 0 then none
    else
      let version := r.stdout.trim
      if version ≠ "" ∧ version ≠ "<no value>" then some (lstripV version)
      else none

/-- External world of one update run: the clock at the cooldown check
(`now`), the three subprocess outcomes, whether the compose directory
exists, the clock when the cooldown timer is written (`endTime`), and the
final version inspection. -/
structure UpdateEnv where
  now : Int
  pull : ProcResult
  dirExists : Bool
  rebuild : ProcResult
  restart : ProcResult
  endTime : Int
  inspect : InspectResult
deriving DecidableEq

/-- Observable outcome of `DockerOperations.perform_update`: the progress
lines yielded, the error raised (if any), the `DockerOperations` state
after the run, and which stages were entered. -/
structure RunResult where
  msgs : List String
  err : Option String
  ops : DockerOps
  pullInvoked : Bool
  rebuildInvoked : Bool
  restartInvoked : Bool
deriving DecidableEq

/-- Embedding of `DockerOperations.perform_update`: cooldown check, then
pull, rebuild, restart in order — the first failing stage aborts the rest —
then the cooldown timer is written and the new version is verified (a step
that cannot fail the run). -/
def DockerOps.perform_update (d : DockerOps) (s : Settings) (env : UpdateEnv) : RunResult :=
  if ¬ d.can_update s env.now then
    { msgs := []
      err := some ("Update cooldown active. Please wait "
        ++ toString (d.get_cooldown_remaining s env.now) ++ " seconds.")
      ops := d
      pullInvoked := false, rebuildInvoked := false, restartInvoked := false }
  else
    let m0 := ["Starting update process..."]
    let pr := pull_base_image env.pull
    match pr.2 with
    | some e =>
      { msgs := m0 ++ pr.1, err := some e, ops := d
        pullInvoked := true, rebuildInvoked := false, restartInvoked := false }
    | none =>
      let rb := rebuild_image env.dirExists s.companion_docker_path env.rebuild
      match rb.2 with
      | some e =>
        { msgs := m0 ++ pr.1 ++ rb.1, err := some e, ops := d
          pullInvoked := true, rebuildInvoked := true, restartInvoked := false }
      | none =>
        let rs := restart_container env.restart
        match rs.2 with
        | some e =>
          { msgs := m0 ++ pr.1 ++ rb.1 ++ rs.1, err := some e, ops := d
            pullInvoked := true, rebuildInvoked := true, restartInvoked := true }
        | none =>
          let verifyMsg :=
            match get_running_version env.inspect with
            | some v => "Update complete! Now running version " ++ v
            | none => "Update complete! Could not verify new version."
          { msgs := m0 ++ pr.1 ++ rb.1 ++ rs.1
              ++ ["Waiting for Companion to start...", verifyMsg]
            err := none
            ops := { last_update_time := env.endTime }
            pullInvoked := true, rebuildInvoked := true, restartInvoked := true }

/-! ## main.py -/

/-- Kinds of Server-Sent Events emitted by the streaming endpoint. -/
inductive EventKind
  | progress
  | complete
  | error
deriving DecidableEq

/-- One Server-Sent Event payload. -/
structure Event where
  kind : EventKind
  message : String
deriving DecidableEq

/-- Result of one invocation of the `stream_update` event generator: the
events sent, the `update_in_progress` flag and `DockerOperations` state
afterwards, and the pipeline run it drove (if any was started). -/
structure StreamResult where
  events : List Event
  update_in_progress : Bool
  ops : DockerOps
  run : Option RunResult
deriving DecidableEq

/-- Embedding of the `event_generator` inside `stream_update`: reject when
a run is in flight or the cooldown is active (no state change), otherwise
set the flag, drive `perform_update` forwarding each yielded line as a
`progress` event, emit one terminal `complete` or `error` event, and clear
the flag in the `finally` block. -/
def stream_update (s : Settings) (flag : Bool) (d : DockerOps) (env : UpdateEnv) :
    StreamResult :=
  if flag then
    { events := [⟨.error, "Update already in progress"⟩]
      update_in_progress := flag, ops := d, run := none }
  else if ¬ d.can_update s env.now then
    { events := [⟨.error, "Cooldown active. Wait "
        ++ toString (d.get_cooldown_remaining s env.now) ++ "s"⟩]
      update_in_progress := flag, ops := d, run := none }
  else
    let r := d.perform_update s env
    let terminal :=
      match r.err with
      | none => Event.mk .complete "Update completed successfully!"
      | some e => Event.mk .error e
    { events := r.msgs.map (fun m => Event.mk .progress m) ++ [terminal]
      update_in_progress := false, ops := r.ops, run := some r }

/-- Response body of the blocking `/api/update` endpoint. -/
structure UpdateResponse where
  success : Bool
  message : String
deriving DecidableEq

/-- Embedding of `trigger_update`: same guards as the streaming endpoint,
but the run is drained silently and summarised in one response. Returns
the response together with the flag and `DockerOperations` state after the
call. -/
def trigger_update (s : Settings) (flag : Bool) (d : DockerOps) (env : UpdateEnv) :
    UpdateResponse × Bool × DockerOps :=
  if flag then
    (⟨false, "Update already in progress"⟩, flag, d)
  else if ¬ d.can_update s env.now then
    (⟨false, "Please wait "
      ++ toString (d.get_cooldown_remaining s env.now) ++ " seconds"⟩, flag, d)
  else
    let r := d.perform_update s env
    (match r.err with
      | none => ⟨true, "Update completed successfully"⟩
      | some e => ⟨false, e⟩,
      false, r.ops)

/-! ### Single-flight state machine

The process-wide `update_in_progress` flag together with the
`DockerOperations` singleton, as mutated by the endpoint handlers. The
ghost field `active` counts the runs currently executing (incremented when
a start request is accepted, decremented when its run ends); it is not
part of the Python state but makes the single-flight property statable.
The check of `update_in_progress` and its assignment to `True` happen with
no `await` point between them, hence as one atomic step. -/

/-- Process-wide orchestrator state plus a ghost count of active runs. -/
structure MState where
  update_in_progress : Bool
  active : Nat
  ops : DockerOps
deriving DecidableEq

/-- The module-level initial state: flag clear, no active run,
`_last_update_time = 0`. -/
def initState : MState :=
  { update_in_progress := false, active := 0, ops := { last_update_time := 0 } }

/-- Atomic admission step of a start request, with the guards in the order
the handlers check them: busy rejection, cooldown rejection, acceptance
(which sets the flag and begins a run). Returns the events emitted
immediately and the successor state. -/
def start_request (s : Settings) (st : MState) (now : Int) : List Event × MState :=
  if st.update_in_progress then
    ([⟨.error, "Update already in progress"⟩], st)
  else if ¬ st.ops.can_update s now then
    ([⟨.error, "Cooldown active. Wait "
      ++ toString (st.ops.get_cooldown_remaining s now) ++ "s"⟩], st)
  else
    ([], { st with update_in_progress := true, active := st.active + 1 })

/-- Small-step relation of the orchestrator: a start request arrives, or
an accepted run finishes (success or failure), clearing the flag in the
`finally` block and leaving the `DockerOperations` state of its pipeline. -/
inductive OrchStep (s : Settings) : MState → MState → Prop
  | start (st : MState) (now : Int) : OrchStep s st (start_request s st now).2
  | finish (st : MState) (env : UpdateEnv) (h : st.update_in_progress = true) :
      OrchStep s st
        { update_in_progress := false
          active := st.active - 1
          ops := (st.ops.perform_update s env).ops }

/-- States reachable from the initial module state. -/
def OrchReachable (s : Settings) (st : MState) : Prop :=
  Relation.ReflTransGen (OrchStep s) initState st

/-! ### Status query -/

/-- Embedding of `DockerOperations.get_container_status`. -/
def get_container_status (r : InspectResult) :
    Bool × String × Bool :=
  match r.exc with
  | some e => (false, "error: " ++ e, false)
  | none =>
    if r.exitcode ≠ 0 then (false, "not found", false)
    else
      let status := r.stdout.trim
      (true, status, status = "running")

/-- Python `str.capitalize`: first character upper-cased, the rest
lower-cased. -/
def pyCapitalize (s : String) : String :=
  match s.toList with
  | [] => ""
  | c :: rest => String.mk (c.toUpper :: rest.map Char.toLower)

/-- Response body of `/api/status`, without the wall-clock
`last_checked` field. -/
structure StatusResponse where
  current_version : String
  latest_version : String
  update_available : Bool
  container_status : String
  container_running : Bool
  can_update : Bool
  cooldown_remaining : Int
deriving DecidableEq

/-- Embedding of `get_status`: compose the container version, the cached
release lookup (a failure degrades the latest version to absent), the
container status, the version comparison (guarded by Python truthiness of
both versions), the cooldown gate and the in-progress flag. -/
def get_status (s : Settings) (d : DockerOps) (flag : Bool) (now : Int)
    (inspectVer : InspectResult) (release : Except String ReleaseInfo)
    (inspectStatus : InspectResult) : StatusResponse :=
  let current_version := get_running_version inspectVer
  let latest_version : Option String :=
    match release with
    | .ok r => some (lstripV r.tag_name)
    | .error _ => none
  let cs := get_container_status inspectStatus
  let update_available :=
    match current_version, latest_version with
    | some c, some l => if c ≠ "" ∧ l ≠ "" then is_update_available c l else false
    | _, _ => false
  { current_version := format_version current_version
    latest_version := format_version latest_version
    update_available := update_available
    container_status := pyCapitalize cs.2.1
    container_running := cs.2.2
    can_update := d.can_update s now && !flag
    cooldown_remaining := d.get_cooldown_remaining s now }

/-! ## Helper lemmas -/

theorem tupLt_irrefl : ∀ xs : List Nat, tupLt xs xs = false
  | [] => rfl
  | x :: xs => by simp [tupLt, tupLt_irrefl xs]

theorem tupLt_asymm : ∀ xs ys : List Nat, tupLt xs ys = true → tupLt ys xs = false := by
  intro xs
  induction xs with
  | nil =>
    intro ys h
    cases ys with
    | nil => simp [tupLt] at h
    | cons y ys => simp [tupLt]
  | cons x xs ih =>
    intro ys h
    cases ys with
    | nil => simp [tupLt] at h
    | cons y ys =>
      simp only [tupLt] at h ⊢
      by_cases h1 : x < y
      · simp [h1, Nat.lt_asymm h1]
      · by_cases h2 : y < x
        · simp [h1, h2] at h
        · simp [h1, h2] at h ⊢
          exact ih ys h

theorem compare_parts_self (xs : List Nat) : compare_parts xs xs = 0 := by
  simp [compare_parts, tupLt_irrefl]

theorem compare_parts_swap (xs ys : List Nat) :
    compare_parts xs ys = - compare_parts ys xs := by
  unfold compare_parts
  rw [Nat.max_comm ys.length xs.length]
  by_cases h1 : tupLt (xs ++ List.replicate (max xs.length ys.length - xs.length) 0)
      (ys ++ List.replicate (max xs.length ys.length - ys.length) 0) = true
  · have h2 := tupLt_asymm _ _ h1
    simp [h1, h2]
  · by_cases h2 : tupLt (ys ++ List.replicate (max xs.length ys.length - ys.length) 0)
        (xs ++ List.replicate (max xs.length ys.length - xs.length) 0) = true
    · simp [h1, h2]
    · simp [h1, h2]

theorem compare_parts_pad (xs : List Nat) (k : Nat) :
    compare_parts xs (xs ++ List.replicate k 0) = 0 := by
  have hmax : max xs.length (xs.length + k) = xs.length + k :=
    Nat.max_eq_right (Nat.le_add_right _ _)
  simp [compare_parts, hmax, Nat.add_sub_cancel_left, tupLt_irrefl]

theorem digitRunsAux_nil_of_no_digit :
    ∀ l : List Char, (∀ c ∈ l, c.isDigit = false) → digitRunsAux l none = [] := by
  intro l
  induction l with
  | nil => intro _; rfl
  | cons c cs ih =>
    intro h
    have hc : c.isDigit = false := h c (List.mem_cons_self c cs)
    simp only [digitRunsAux, hc, Bool.false_eq_true, if_false]
    exact ih fun x hx => h x (List.mem_cons_of_mem c hx)

/-! ## Claims about the version comparator -/

/-- C7. Version parsing is total and yields the empty sequence on
digit-free input; comparison right-pads with zeros, so trailing zero
components never change the result; the two concrete examples from the
spec hold. -/
theorem version_parsing_total_and_padding :
    (∀ s : String, (∀ c ∈ s.toList, c.isDigit = false) → parse_version s = []) ∧
    (∀ (xs : List Nat) (k : Nat), compare_parts xs (xs ++ List.replicate k 0) = 0) ∧
    is_update_available "4.2" "4.2.0" = false ∧
    is_update_available "4.2.3" "4.2.4" = true := by
  refine ⟨fun s h => ?_, fun xs k => compare_parts_pad xs k, by decide, by decide⟩
  exact digitRunsAux_nil_of_no_digit _
    fun c hc => h c ((List.dropWhile_sublist _).subset hc)

/-- Witness for C7 at concrete inputs. -/
theorem version_parsing_total_and_padding_witness :
    parse_version "latest" = [] ∧
    compare_parts [4, 2] ([4, 2] ++ List.replicate 1 0) = 0 :=
  ⟨version_parsing_total_and_padding.1 "latest" (by decide),
   version_parsing_total_and_padding.2.1 [4, 2] 1⟩

/-- C8. Version comparison is antisymmetric under negation and reflexive
inputs compare equal. -/
theorem compare_versions_antisymmetry :
    (∀ a b : String, compare_versions a b = - compare_versions b a) ∧
    (∀ a : String, compare_versions a a = 0) :=
  ⟨fun _ _ => compare_parts_swap _ _, fun _ => compare_parts_self _⟩

/-- Counterexample for C9: an input that already starts with two `v`
characters is returned unchanged, so the display string does not have
exactly one leading `v`. -/
theorem format_version_two_leading_vs :
    format_version (some "vv4.2.3") = "vv4.2.3" ∧
    leadingVCount (format_version (some "vv4.2.3")) ≠ 1 := by decide

/-- C9 as amended: absent or empty input yields the sentinel; non-empty
input yields at least one leading `v` — a `v` is prepended when the input
lacks one, and the input is returned unchanged (extra `v` characters
included) when it already starts with `v`. -/
theorem format_version_amended :
    format_version none = "Unknown" ∧
    format_version (some "") = "Unknown" ∧
    (∀ v : String, v ≠ "" →
      1 ≤ leadingVCount (format_version (some v)) ∧
      (startsWithV v = false → format_version (some v) = "v" ++ v) ∧
      (startsWithV v = true → format_version (some v) = v)) := by
  refine ⟨rfl, rfl, fun v hv => ?_⟩
  have happ : ("v" ++ v).toList = 'v' :: v.toList := by cases v; rfl
  by_cases hsv : startsWithV v = true
  · have hfmt : format_version (some v) = v := by simp [format_version, hv, hsv]
    refine ⟨?_, ?_, fun _ => hfmt⟩
    · rw [hfmt]
      unfold startsWithV at hsv
      unfold leadingVCount
      match hl : v.toList with
      | [] => rw [hl] at hsv; cases hsv
      | c :: rest =>
        rw [hl] at hsv
        simp at hsv
        simp [List.takeWhile_cons, hsv]
    · intro hfalse
      rw [hsv] at hfalse
      exact Bool.noConfusion hfalse
  · have hsv' : startsWithV v = false := by
      cases h : startsWithV v
      · rfl
      · exact absurd h hsv
    have hfmt : format_version (some v) = "v" ++ v := by
      simp [format_version, hv, hsv']
    refine ⟨?_, fun _ => hfmt, fun htrue => absurd htrue hsv⟩
    rw [hfmt]
    unfold leadingVCount
    rw [happ]
    simp [List.takeWhile_cons]

/-- Witness for C9 as amended, at a concrete input without a leading v. -/
theorem format_version_amended_witness :
    1 ≤ leadingVCount (format_version (some "4.2.3")) ∧
    format_version (some "4.2.3") = "v" ++ "4.2.3" :=
  ⟨(format_version_amended.2.2 "4.2.3" (by decide)).1,
   (format_version_amended.2.2 "4.2.3" (by decide)).2.1 (by decide)⟩

/-! ## Claims about the release cache -/

/-- C4. A fresh cache entry is returned without any network request and
without a state change; an absent or expired entry causes exactly one
request, and a successful fetch replaces the cache wholesale with the
value that is returned. -/
theorem release_cache_ttl_behaviour (g : GitHubClient) (s : Settings)
    (now fetchedAt : Int) (fetch : Except FetchErr FetchData) :
    (∀ c, g.cache = some c → now - g.cache_time < s.github_cache_ttl →
      g.get_latest_release s now fetchedAt fetch = (Except.ok c, g, 0)) ∧
    (g.is_cache_valid s now = false →
      (g.get_latest_release s now fetchedAt fetch).2.2 = 1 ∧
      ∀ d, fetch = Except.ok d →
        g.get_latest_release s now fetchedAt fetch =
          (Except.ok (mkCacheEntry d),
            { cache := some (mkCacheEntry d), cache_time := fetchedAt }, 1)) := by
  constructor
  · intro c hc hlt
    have hvalid : g.is_cache_valid s now = true := by
      simp [GitHubClient.is_cache_valid, hc, hlt]
    simp [GitHubClient.get_latest_release, hvalid, hc]
  · intro hinvalid
    constructor
    · cases fetch with
      | ok d => simp [GitHubClient.get_latest_release, hinvalid]
      | error e => simp [GitHubClient.get_latest_release, hinvalid]
    · intro d hd
      subst hd
      simp [GitHubClient.get_latest_release, hinvalid]

/-- Witness for C4: a cache hit 20 seconds into a 60 second TTL. -/
theorem release_cache_ttl_behaviour_witness :
    GitHubClient.get_latest_release ⟨some ⟨"v4.2.4", "", "", "", ""⟩, 100⟩
        ⟨"/opt/companion-docker", 300, 60⟩ 120 125
        (Except.error (FetchErr.transport "offline")) =
      (Except.ok ⟨"v4.2.4", "", "", "", ""⟩, ⟨some ⟨"v4.2.4", "", "", "", ""⟩, 100⟩, 0) :=
  (release_cache_ttl_behaviour ⟨some ⟨"v4.2.4", "", "", "", ""⟩, 100⟩
      ⟨"/opt/companion-docker", 300, 60⟩ 120 125
      (Except.error (FetchErr.transport "offline"))).1
    ⟨"v4.2.4", "", "", "", ""⟩ rfl (by decide)

/-- C5. A failed fetch (HTTP or transport level) surfaces an error built
from the underlying cause and leaves the cache entry and its timestamp
untouched. -/
theorem release_fetch_failure_state (g : GitHubClient) (s : Settings)
    (now fetchedAt : Int) (e : FetchErr)
    (hinvalid : g.is_cache_valid s now = false) :
    g.get_latest_release s now fetchedAt (Except.error e) =
      (Except.error (fetchErrorMessage e), g, 1) := by
  simp [GitHubClient.get_latest_release, hinvalid]

/-- Witness for C5: a 404 response against an empty cache. -/
theorem release_fetch_failure_state_witness :
    GitHubClient.get_latest_release ⟨none, 0⟩ ⟨"/opt/companion-docker", 300, 60⟩ 120 125
        (Except.error (FetchErr.httpStatus 404)) =
      (Except.error "GitHub API error: 404", ⟨none, 0⟩, 1) :=
  release_fetch_failure_state ⟨none, 0⟩ ⟨"/opt/companion-docker", 300, 60⟩ 120 125
    (FetchErr.httpStatus 404) rfl

/-! ## Claims about the cooldown gate -/

/-- C6. The cooldown gate admits an attempt exactly when the elapsed time
reaches the configured interval (in particular right after start-up, when
no attempt has been recorded and the clock is past the interval), and the
remaining time is the clamped difference, never negative. -/
theorem cooldown_gate_behaviour (s : Settings) (d : DockerOps) (now : Int) :
    (d.can_update s now = true ↔ s.update_cooldown ≤ now - d.last_update_time) ∧
    (d.last_update_time = 0 → s.update_cooldown ≤ now → d.can_update s now = true) ∧
    d.get_cooldown_remaining s now =
      max 0 (s.update_cooldown - (now - d.last_update_time)) ∧
    0 ≤ d.get_cooldown_remaining s now := by
  refine ⟨?_, ?_, rfl, le_max_left 0 _⟩
  · simp [DockerOps.can_update]
  · intro h0 hle
    simp [DockerOps.can_update, h0]
    exact hle

/-- Witness for C6: fresh state, clock at 1000, cooldown 300. -/
theorem cooldown_gate_behaviour_witness :
    DockerOps.can_update ⟨0⟩ ⟨"/opt/companion-docker", 300, 60⟩ 1000 = true :=
  (cooldown_gate_behaviour ⟨"/opt/companion-docker", 300, 60⟩ ⟨0⟩ 1000).2.1 rfl (by decide)

/-! ## Claims about the update pipeline -/

/-- Counterexample for C1: an accepted run whose pull stage fails leaves
`_last_update_time` at its previous value 0, not at the run's start time
1000 — the timer is not written at acceptance and not written at all on a
failed run. -/
theorem cooldown_not_set_on_failed_run :
    DockerOps.can_update ⟨0⟩ ⟨"/opt/companion-docker", 300, 60⟩ 1000 = true ∧
    (DockerOps.perform_update ⟨0⟩ ⟨"/opt/companion-docker", 300, 60⟩
        ⟨1000, ⟨[], 1⟩, true, ⟨[], 0⟩, ⟨[], 0⟩, 1042, ⟨"", 0, none⟩⟩).err =
      some "Failed to pull base image" ∧
    (DockerOps.perform_update ⟨0⟩ ⟨"/opt/companion-docker", 300, 60⟩
        ⟨1000, ⟨[], 1⟩, true, ⟨[], 0⟩, ⟨[], 0⟩, 1042, ⟨"", 0, none⟩⟩).ops.last_update_time =
      0 ∧
    (0 : Int) ≠ 1000 := by decide

/-- C1 as amended: for an accepted run the cooldown timestamp is written
at most once, and only after pull, rebuild and restart have all succeeded
(just before verification); a run failing in any stage leaves it at its
previous value. -/
theorem cooldown_timestamp_set_after_stages (s : Settings) (d : DockerOps)
    (env : UpdateEnv) (hacc : d.can_update s env.now = true) :
    ((env.pull.exitcode ≠ 0 ∨ env.dirExists = false ∨ env.rebuild.exitcode ≠ 0 ∨
        env.restart.exitcode ≠ 0) →
      (d.perform_update s env).ops = d) ∧
    (env.pull.exitcode = 0 → env.dirExists = true → env.rebuild.exitcode = 0 →
      env.restart.exitcode = 0 →
      (d.perform_update s env).ops = { last_update_time := env.endTime }) := by
  constructor
  · intro hfail
    rcases hfail with h | h | h | h
    · simp [DockerOps.perform_update, hacc, pull_base_image, h]
    · by_cases hp : env.pull.exitcode = 0
      · simp [DockerOps.perform_update, hacc, pull_base_image, rebuild_image, hp, h]
      · simp [DockerOps.perform_update, hacc, pull_base_image, hp]
    · by_cases hp : env.pull.exitcode = 0
      · by_cases hd : env.dirExists = true
        · simp [DockerOps.perform_update, hacc, pull_base_image, rebuild_image, hp, hd, h]
        · simp [DockerOps.perform_update, hacc, pull_base_image, rebuild_image, hp, hd]
      · simp [DockerOps.perform_update, hacc, pull_base_image, hp]
    · by_cases hp : env.pull.exitcode = 0
      · by_cases hd : env.dirExists = true
        · by_cases hr : env.rebuild.exitcode = 0
          · simp [DockerOps.perform_update, hacc, pull_base_image, rebuild_image,
              restart_container, hp, hd, hr, h]
          · simp [DockerOps.perform_update, hacc, pull_base_image, rebuild_image, hp, hd, hr]
        · simp [DockerOps.perform_update, hacc, pull_base_image, rebuild_image, hp, hd]
      · simp [DockerOps.perform_update, hacc, pull_base_image, hp]
  · intro hp hd hr hrs
    simp [DockerOps.perform_update, hacc, pull_base_image, rebuild_image,
      restart_container, hp, hd, hr, hrs]

/-- Witness for C1 as amended: an all-successful run writes the timer with
the clock value taken after the restart stage. -/
theorem cooldown_timestamp_set_after_stages_witness :
    (DockerOps.perform_update ⟨0⟩ ⟨"/opt/companion-docker", 300, 60⟩
        ⟨1000, ⟨[], 0⟩, true, ⟨[], 0⟩, ⟨[], 0⟩, 1042, ⟨"", 0, none⟩⟩).ops =
      { last_update_time := 1042 } :=
  (cooldown_timestamp_set_after_stages ⟨"/opt/companion-docker", 300, 60⟩ ⟨0⟩
      ⟨1000, ⟨[], 0⟩, true, ⟨[], 0⟩, ⟨[], 0⟩, 1042, ⟨"", 0, none⟩⟩ (by decide)).2
    rfl rfl rfl rfl

/-! ## Single-flight claims -/

/-- Invariant tying the ghost count of active runs to the
`update_in_progress` flag. -/
def orchInv (st : MState) : Prop :=
  st.active = if st.update_in_progress then 1 else 0

theorem orchInv_init : orchInv initState := by
  simp [orchInv, initState]

theorem orchInv_step (s : Settings) {st st' : MState}
    (h : OrchStep s st st') (hinv : orchInv st) : orchInv st' := by
  cases h with
  | start now =>
    unfold orchInv at hinv ⊢
    by_cases hb : st.update_in_progress = true
    · simp [start_request, hb] at hinv ⊢
      exact hinv
    · by_cases hc : st.ops.can_update s now = true
      · simp [start_request, hb, hc] at hinv ⊢
        omega
      · simp [start_request, hb, hc] at hinv ⊢
        exact hinv
  | finish env hflag =>
    unfold orchInv at hinv ⊢
    rw [hflag] at hinv
    simp at hinv ⊢
    omega

theorem orchReachable_inv (s : Settings) {st : MState}
    (h : OrchReachable s st) : orchInv st := by
  induction h with
  | refl => exact orchInv_init
  | tail _ hstep ih => exact orchInv_step s hstep ih

/-- C2. In every reachable orchestrator state at most one run is active,
and a start request arriving while a run is in flight yields exactly one
error event with the message `Update already in progress` and leaves the
state — flag, ghost count, cooldown timer — unchanged, on the admission
step, the streaming endpoint and the blocking endpoint alike. -/
theorem single_flight_guard (s : Settings) :
    (∀ st, OrchReachable s st → st.active ≤ 1) ∧
    (∀ (st : MState) (now : Int), st.update_in_progress = true →
      start_request s st now = ([⟨.error, "Update already in progress"⟩], st)) ∧
    (∀ (d : DockerOps) (env : UpdateEnv),
      stream_update s true d env =
        { events := [⟨.error, "Update already in progress"⟩]
          update_in_progress := true, ops := d, run := none }) ∧
    (∀ (d : DockerOps) (env : UpdateEnv),
      trigger_update s true d env = (⟨false, "Update already in progress"⟩, true, d)) := by
  refine ⟨fun st h => ?_, fun st now hb => ?_, fun d env => ?_, fun d env => ?_⟩
  · have hinv := orchReachable_inv s h
    unfold orchInv at hinv
    cases hflag : st.update_in_progress <;> rw [hflag] at hinv <;> simp at hinv <;> omega
  · simp [start_request, hb]
  · simp [stream_update]
  · simp [trigger_update]

/-- Witness for C2: the initial state is reachable with no active run, and
a busy state rejects a start request without change. -/
theorem single_flight_guard_witness :
    initState.active ≤ 1 ∧
    start_request ⟨"/opt/companion-docker", 300, 60⟩ ⟨true, 1, ⟨0⟩⟩ 1000 =
      ([⟨.error, "Update already in progress"⟩], ⟨true, 1, ⟨0⟩⟩) :=
  ⟨(single_flight_guard ⟨"/opt/companion-docker", 300, 60⟩).1 initState
      Relation.ReflTransGen.refl,
   (single_flight_guard ⟨"/opt/companion-docker", 300, 60⟩).2.1 ⟨true, 1, ⟨0⟩⟩ 1000 rfl⟩

/-- C3. When the rebuild stage of an accepted run fails, the restart stage
is never entered, the event stream is a block of progress events closed by
exactly one terminal error event, and the flag is clear after the run. -/
theorem rebuild_failure_aborts_run (s : Settings) (d : DockerOps) (env : UpdateEnv)
    (hacc : d.can_update s env.now = true)
    (hp : env.pull.exitcode = 0)
    (hfail : env.dirExists = false ∨ env.rebuild.exitcode ≠ 0) :
    (∃ ps e, (stream_update s false d env).events = ps ++ [⟨.error, e⟩] ∧
      ∀ ev ∈ ps, ev.kind = .progress) ∧
    (stream_update s false d env).update_in_progress = false ∧
    (∃ rr, (stream_update s false d env).run = some rr ∧ rr.restartInvoked = false) := by
  have herr : ∃ e, (d.perform_update s env).err = some e ∧
      (d.perform_update s env).restartInvoked = false := by
    rcases hfail with hd | hr
    · refine ⟨"Companion directory not found: " ++ s.companion_docker_path, ?_⟩
      simp [DockerOps.perform_update, hacc, pull_base_image, rebuild_image, hp, hd]
    · by_cases hd : env.dirExists = true
      · refine ⟨"Failed to rebuild image", ?_⟩
        simp [DockerOps.perform_update, hacc, pull_base_image, rebuild_image, hp, hd, hr]
      · refine ⟨"Companion directory not found: " ++ s.companion_docker_path, ?_⟩
        simp [DockerOps.perform_update, hacc, pull_base_image, rebuild_image, hp, hd]
  obtain ⟨e, he, hri⟩ := herr
  have h1 : (stream_update s false d env).events =
      (d.perform_update s env).msgs.map (fun m => Event.mk .progress m)
        ++ [Event.mk .error e] := by
    simp [stream_update, hacc, he]
  have h2 : (stream_update s false d env).update_in_progress = false := by
    simp [stream_update, hacc]
  have h3 : (stream_update s false d env).run = some (d.perform_update s env) := by
    simp [stream_update, hacc]
  refine ⟨⟨_, e, h1, ?_⟩, h2, ⟨_, h3, hri⟩⟩
  intro ev hev
  rcases List.mem_map.mp hev with ⟨m, _, rfl⟩
  rfl

/-- Witness for C3: a run whose compose build exits with status 1. -/
theorem rebuild_failure_aborts_run_witness :
    (∃ ps e,
      (stream_update ⟨"/opt/companion-docker", 300, 60⟩ false ⟨0⟩
          ⟨1000, ⟨[], 0⟩, true, ⟨[], 1⟩, ⟨[], 0⟩, 1042, ⟨"", 0, none⟩⟩).events =
        ps ++ [⟨.error, e⟩] ∧ ∀ ev ∈ ps, ev.kind = .progress) ∧
    (stream_update ⟨"/opt/companion-docker", 300, 60⟩ false ⟨0⟩
        ⟨1000, ⟨[], 0⟩, true, ⟨[], 1⟩, ⟨[], 0⟩, 1042, ⟨"", 0, none⟩⟩).update_in_progress =
      false ∧
    (∃ rr,
      (stream_update ⟨"/opt/companion-docker", 300, 60⟩ false ⟨0⟩
          ⟨1000, ⟨[], 0⟩, true, ⟨[], 1⟩, ⟨[], 0⟩, 1042, ⟨"", 0, none⟩⟩).run = some rr ∧
      rr.restartInvoked = false) :=
  rebuild_failure_aborts_run ⟨"/opt/companion-docker", 300, 60⟩ ⟨0⟩
    ⟨1000, ⟨[], 0⟩, true, ⟨[], 1⟩, ⟨[], 0⟩, 1042, ⟨"", 0, none⟩⟩
    (by decide) rfl (Or.inr (by decide))

/-! ## Claims about the status query -/

/-- C10. The `can_update` field of the status response is the conjunction
of the cooldown gate and the cleared in-flight flag, hence false whenever
an update run is in progress. -/
theorem status_can_update_characterisation (s : Settings) (d : DockerOps)
    (flag : Bool) (now : Int) (iv : InspectResult)
    (rel : Except String ReleaseInfo) (istat : InspectResult) :
    ((get_status s d flag now iv rel istat).can_update
        = (d.can_update s now && !flag)) ∧
    (flag = true → (get_status s d flag now iv rel istat).can_update = false) := by
  refine ⟨rfl, fun h => ?_⟩
  subst h
  simp [get_status]

/-- Witness for C10: with a run in flight and an elapsed cooldown the
status still reports that no update can start. -/
theorem status_can_update_characterisation_witness :
    (get_status ⟨"/opt/companion-docker", 300, 60⟩ ⟨0⟩ true 1000 ⟨"4.2.3", 0, none⟩
        (Except.error "offline") ⟨"running", 0, none⟩).can_update = false :=
  (status_can_update_characterisation ⟨"/opt/companion-docker", 300, 60⟩ ⟨0⟩ true 1000
      ⟨"4.2.3", 0, none⟩ (Except.error "offline") ⟨"running", 0, none⟩).2 rfl
